import Mathlib

/-!
Verification of the go-micro rpc API handler (files `rpc.go` and `stream.go`).

The Go code is shallowly embedded: HTTP requests become a record of the
fields the handler reads, byte slices become `String`s (the handler treats
payload bytes opaquely), and the two relay loops of the streaming bridge
become step functions over a list of externally supplied events (what each
blocking call returned at that iteration), producing a trace of observable
actions.  External collaborators (the jsonrpc/protorpc codecs, the qson
query converter) are kept opaque: only the dispatch that selects them is
modelled, except where a claim needs the collaborator's documented output,
in which case the definition is explicitly marked as modelled from the spec.
-/

namespace MicroRpc

/-! ## String helpers mirroring the Go standard library calls used -/

/-- `strings.HasPrefix`-style check on char lists (haystack, needle). -/
def startsWith : List Char → List Char → Bool
  | _, [] => true
  | [], _ :: _ => false
  | a :: as, b :: bs => a == b && startsWith as bs

/-- `strings.Contains pat` on char lists: does `pat` occur contiguously? -/
def containsSeq (pat : List Char) : List Char → Bool
  | [] => pat.isEmpty
  | a :: as => startsWith (a :: as) pat || containsSeq pat as

/-- Go `strings.Contains s pat`. -/
def containsSub (s pat : String) : Bool :=
  containsSeq pat.data s.data

/-- Go `strings.Split` on a one-character separator (the code always splits
on `","`). -/
def splitOnChar (sep : Char) : List Char → List (List Char)
  | [] => [[]]
  | c :: cs =>
    if c == sep then [] :: splitOnChar sep cs
    else
      match splitOnChar sep cs with
      | [] => [[c]]
      | g :: gs => (c :: g) :: gs

/-- The whitespace test of Go `strings.TrimSpace` (restricted to the ASCII
whitespace that HTTP header values can contain). -/
def isSpc (c : Char) : Bool :=
  c == ' ' || c == '\t' || c == '\n' || c == '\r'

/-- Go `strings.TrimSpace` on char lists. -/
def trimChars (l : List Char) : List Char :=
  ((l.dropWhile isSpc).reverse.dropWhile isSpc).reverse

/-- `rpc.go:110-112` / `stream.go:27-29`: strip everything from the first
`';'` onward of a Content-Type value (`strings.IndexRune` + slice). -/
def stripCT (ct : String) : String :=
  String.mk (ct.data.takeWhile (fun c => c != ';'))

/-! ## The fixed codec tables (`rpc.go:31-47`) -/

/-- `rpc.go:33-37`: supported json codecs. -/
def jsonCodecs : List String :=
  ["application/grpc+json", "application/json", "application/json-rpc"]

/-- `rpc.go:40-47`: supported proto codecs. -/
def protoCodecs : List String :=
  ["application/grpc", "application/grpc+proto", "application/proto",
   "application/protobuf", "application/proto-rpc", "application/octet-stream"]

/-- `rpc.go:208-215`: linear scan for an exact match. -/
def hasCodec (ct : String) (codecs : List String) : Bool :=
  codecs.contains ct

/-! ## The inbound request and payload extraction (`rpc.go:220-286`) -/

/-- The fields of `*http.Request` that `requestPayload` and the dispatch in
`ServeHTTP` read.  `body` is the client's full request body; the size
ceiling installed by `http.MaxBytesReader` (`rpc.go:79`) is passed
separately. -/
structure Request where
  method : String
  contentType : String
  rawQuery : String
  body : String
deriving DecidableEq, Repr

/-- Errors `requestPayload` can surface.  `tooLarge` is the error produced
by reading past the `http.MaxBytesReader` ceiling. -/
inductive PayloadErr
  | tooLarge
deriving DecidableEq, Repr

/-- The extracted payload, tagged by which extraction family produced it.
The jsonrpc/protorpc envelope decoders and the form re-encoder are external
collaborators; their output is kept opaque (the raw body is recorded). -/
inductive Payload
  | envJson (body : String)
  | envProto (body : String)
  | form (body : String)
  | query (json : String)
  | bytes (b : String)
  | empty
deriving DecidableEq, Repr

/-- Events on the process-wide buffer pool (`bufferPool.Get` / the deferred
`bufferPool.Put`, `rpc.go:277-278`). -/
inductive PoolEv
  | get
  | put
deriving DecidableEq, Repr

/-- Modelled from the spec: the external `qson.ToJSON` dependency, which is
not part of this repository.  Per the spec, a read-only request's query
string is converted "into an equivalent structured-text payload", e.g.
`a=1&b=2` becomes the JSON object mapping `"a"` to `"1"` and `"b"` to
`"2"`.  Modelled for flat (non-nested) queries: split on `&`, split each
parameter at its first `=`, and render the resulting pairs as a JSON
object of strings. -/
def qsonToJSON (q : String) : String :=
  let pairs := (splitOnChar '&' q.data).map (fun kv =>
    let k := kv.takeWhile (fun c => c != '=')
    let v := (kv.dropWhile (fun c => c != '=')).drop 1
    (String.mk k, String.mk v))
  let fields := pairs.map (fun p => "\"" ++ p.1 ++ "\":\"" ++ p.2 ++ "\"")
  "\x7b" ++ String.intercalate "," fields ++ "\x7d"

/-- `rpc.go:271-285`: the method switch at the end of `requestPayload`.
GET with a non-empty query goes through `qson.ToJSON`; PATCH and POST share
one case that checks a buffer out of the pool, reads the full body into it
(failing if the `MaxBytesReader` ceiling is exceeded) and returns the
buffer to the pool via `defer` on every exit path; any other method falls
through to the empty payload. -/
def methodPayload (ceiling : Nat) (r : Request) :
    Except PayloadErr Payload × List PoolEv :=
  match r.method with
  | "GET" =>
    if 0 < r.rawQuery.length then (.ok (.query (qsonToJSON r.rawQuery)), [])
    else (.ok .empty, [])
  | "PATCH" | "POST" =>
    if r.body.length ≤ ceiling then (.ok (.bytes r.body), [.get, .put])
    else (.error .tooLarge, [.get, .put])
  | _ => (.ok .empty, [])

/-- `rpc.go:220-286` `requestPayload`: the Content-Type switch (substring
containment on the raw, unstripped header value, in source order:
json-rpc envelope, then proto-rpc/octet-stream envelope, then form),
falling through to the method switch.  Returns the extraction result
together with the trace of buffer-pool events. -/
def requestPayload (ceiling : Nat) (r : Request) :
    Except PayloadErr Payload × List PoolEv :=
  if containsSub r.contentType "application/json-rpc" then
    (.ok (.envJson r.body), [])
  else if containsSub r.contentType "application/proto-rpc" ||
      containsSub r.contentType "application/octet-stream" then
    (.ok (.envProto r.body), [])
  else if containsSub r.contentType "application/www-x-form-urlencoded" then
    (.ok (.form r.body), [])
  else methodPayload ceiling r

/-! ## The unary dispatch in `ServeHTTP` (`rpc.go:73-202`) -/

/-- The two wire families the unary call path distinguishes
(`rpc.go:140-171`): proto codecs versus the json default. -/
inductive WireFamily
  | binaryFramed
  | structuredText
deriving DecidableEq, Repr

/-- `rpc.go:107-112` + `rpc.go:140-171`: classification of a raw
Content-Type header for the unary call path — strip the `;` suffix, then
look the remainder up in the proto codec table; everything else takes the
json (structured-text) default branch. -/
def classifyCT (rawCt : String) : WireFamily :=
  let ct := stripCT rawCt
  if hasCodec ct protoCodecs then .binaryFramed else .structuredText

/-- `rpc.go:167-171`: the content type forwarded to the backend on the
default branch — kept when it is a known json codec, replaced by
`application/json` otherwise. -/
def forwardCT (rawCt : String) : String :=
  let ct := stripCT rawCt
  if hasCodec ct protoCodecs then ct
  else if hasCodec ct jsonCodecs then ct
  else "application/json"

/-- Outcomes of the gate at the top of `ServeHTTP` (`rpc.go:84-105`). -/
inductive GateOutcome
  | routeError
  | methodNotAllowed
  | handled
deriving DecidableEq, Repr

/-- `rpc.go:84-105`: service resolution followed by the method gate.
`hasService` is whether the handler was built by `WithService`
(`rpc.go:351-357`, which stores the service in `h.s`); `hasRouter` is
whether `h.opts.Router` is set.  With neither, the request is rejected
with an internal error; otherwise the method check
`r.Method != "GET" && (h.opts.Router != nil && r.Method != "POST")`
(`rpc.go:102`) decides MethodNotAllowed. -/
def serveGate (hasService hasRouter : Bool) (method : String) : GateOutcome :=
  if !hasService && !hasRouter then .routeError
  else if method != "GET" && (hasRouter && method != "POST") then
    .methodNotAllowed
  else .handled

/-! ## The streaming gate (`stream.go:232-269`) -/

/-- One endpoint of a registered backend service (`registry.Endpoint`):
its name and its metadata map (modelled as an association list; Go map
lookup of a missing key yields `""`). -/
structure Endpoint where
  name : String
  metadata : List (String × String)
deriving DecidableEq, Repr

/-- Go map read `m[k]` with the string zero value for a missing key. -/
def mdGet (md : List (String × String)) (k : String) : String :=
  ((md.find? (fun p => p.1 == k)).map Prod.snd).getD ""

/-- One registered instance of the backend service (`registry.Service`):
only its endpoint list is read by `isStream`. -/
structure ServiceInst where
  endpoints : List Endpoint
deriving DecidableEq, Repr

/-- The resolved `*api.Service`: the requested endpoint name and the list
of registered service instances. -/
structure ApiService where
  endpointName : String
  services : List ServiceInst
deriving DecidableEq, Repr

/-- The header fields of the request that the streaming gate and the
websocket negotiation read. -/
structure StreamHeaders where
  connection : String
  upgrade : String
deriving DecidableEq, Repr

/-- `stream.go:254-262`: split a header value on `","`, trim each element,
lowercase it, and compare with the wanted token. -/
def headerHasToken (value token : String) : Bool :=
  (splitOnChar ',' value.data).any
    (fun v => token == String.mk ((trimChars v).map Char.toLower))

/-- `stream.go:253-269` `isWebSocket`: both the Connection header must
carry the `upgrade` token and the Upgrade header the `websocket` token. -/
def isWebSocket (h : StreamHeaders) : Bool :=
  headerHasToken h.connection "upgrade" && headerHasToken h.upgrade "websocket"

/-- `stream.go:232-251` `isStream`: a websocket upgrade request whose
resolved endpoint name matches, in some registered instance, an endpoint
carrying metadata `"stream" == "true"`. -/
def isStream (h : StreamHeaders) (srv : ApiService) : Bool :=
  isWebSocket h &&
    srv.services.any (fun s =>
      s.endpoints.any (fun ep =>
        if ep.name != srv.endpointName then false
        else mdGet ep.metadata "stream" == "true"))

/-- The two handling paths of `ServeHTTP` (`rpc.go:121-124`). -/
inductive Dispatch
  | streaming
  | unary
deriving DecidableEq, Repr

/-- `rpc.go:121-124`: the Streaming Bridge is entered exactly when
`isStream` holds; otherwise the standard unary call path runs. -/
def dispatch (h : StreamHeaders) (srv : ApiService) : Dispatch :=
  if isStream h srv then .streaming else .unary

/-! ## Framing-op negotiation (`stream.go:41-60`) -/

/-- The two websocket frame opcodes the bridge negotiates. -/
inductive OpCode
  | text
  | binary
deriving DecidableEq, Repr

/-- `stream.go:25-60`: negotiate the frame op.  The Content-Type (suffix
stripped) selects text only for `application/json`; then, if the
`Sec-WebSocket-Protocol` header is present, every listed protocol value —
whether it is `binary` or anything else — sets the op to binary (both the
`case "binary"` and the `default` arm of the inner switch assign
`ws.OpBinary`). -/
def negotiateOp (rawCt : String) (protos : Option (List String)) : OpCode :=
  let ct := stripCT rawCt
  let op := if ct == "application/json" then OpCode.text else OpCode.binary
  match protos with
  | none => op
  | some ps =>
    ps.foldl (fun _ p => if p == "binary" then OpCode.binary else OpCode.binary) op

/-- The framing-op rule as the spec states it (for comparison with
`negotiateOp`): binary when some protocol-hint value explicitly requests
binary framing; otherwise text exactly when the stripped content type is
`application/json`. -/
def specNegotiateOp (rawCt : String) (protos : Option (List String)) : OpCode :=
  if (protos.getD []).contains "binary" then OpCode.binary
  else if stripCT rawCt == "application/json" then OpCode.text
  else OpCode.binary

/-! ## The initial outbound frame (`stream.go:101-140`) -/

/-- The request value built for the backend stream: a raw json message for
`application/json`, a codec frame otherwise (`stream.go:101-109`). -/
inductive InitMsg
  | jsonMsg (payload : String)
  | frameMsg (payload : String)
deriving DecidableEq, Repr

/-- `stream.go:101-140`: build the request value (`var request interface{}`
starts nil; both switch arms assign to it) and send it as the stream's
first outbound frame when it is non-nil (`if request != nil`,
`stream.go:133`).  Returns the list of frames sent before the relay loops
start. -/
def initialSends (rawCt : String) (payload : String) : List InitMsg :=
  let ct := stripCT rawCt
  let request : Option InitMsg :=
    some (if ct == "application/json" then .jsonMsg payload else .frameMsg payload)
  match request with
  | some r => [r]
  | none => []

/-! ## The upstream relay `writeLoop` (`stream.go:185-230`)

The loop is embedded as a step function over a list of externally supplied
iteration inputs: at each iteration the environment provides whether the
backend stream's context was already done (the non-blocking `select`
check), what `wsutil.ReadClientData` returned, and whether `stream.Send`
would succeed.  The function returns the trace of observable actions of a
terminating run, or `none` when the supplied inputs are exhausted with the
loop still running.  The `defer stream.Close()` at `stream.go:187` is the
wrapper appending a close action to every terminating run. -/

/-- Websocket close status codes used by `writeLoop`
(`ws.StatusNormalClosure`, `ws.StatusGoingAway`, `ws.StatusNoStatusRcvd`). -/
def statusNormalClosure : Nat := 1000

/-- `ws.StatusGoingAway`. -/
def statusGoingAway : Nat := 1001

/-- `ws.StatusNoStatusRcvd`. -/
def statusNoStatusRcvd : Nat := 1005

/-- `stream.go:197-204`: the close statuses `writeLoop` treats as benign. -/
def benignCode (c : Nat) : Bool :=
  c == statusGoingAway || c == statusNormalClosure || c == statusNoStatusRcvd

/-- The opcode of a message returned by `wsutil.ReadClientData`, as the
loop's switch distinguishes them: text, binary, or anything else
(control/continuation). -/
inductive WsOp
  | text
  | binary
  | other
deriving DecidableEq, Repr

/-- What one call to `wsutil.ReadClientData` returned: a connection-close
error carrying a status code, some other read error, or a message. -/
inductive ReadEvent
  | closedErr (code : Nat)
  | otherErr
  | msg (op : WsOp) (buf : String)
deriving DecidableEq, Repr

/-- The environment's inputs to one iteration of `writeLoop`. -/
structure Step where
  ctxDone : Bool
  read : ReadEvent
  sendOk : Bool
deriving DecidableEq, Repr

/-- Observable actions of the upstream relay: an error logged, a frame
forwarded to the backend stream, the backend stream closed. -/
inductive Ev
  | logErr
  | sent (buf : String)
  | close
deriving DecidableEq, Repr

/-- The body of `writeLoop`'s `for` loop (`stream.go:189-229`): check the
stream context non-blockingly; read; on a benign close status return
silently, on any other error log and return; skip non-data opcodes;
forward text/binary frames to the backend, logging and returning if the
send fails. -/
def writeLoopBody : List Step → Option (List Ev)
  | [] => none
  | s :: rest =>
    if s.ctxDone then some []
    else
      match s.read with
      | .closedErr c => if benignCode c then some [] else some [.logErr]
      | .otherErr => some [.logErr]
      | .msg op buf =>
        match op with
        | .other => writeLoopBody rest
        | .text | .binary =>
          if s.sendOk then (writeLoopBody rest).map (fun t => .sent buf :: t)
          else some [.logErr]

/-- `writeLoop` (`stream.go:185-230`) with its `defer stream.Close()`:
every terminating run ends by closing the backend stream exactly once. -/
def writeLoopRun (steps : List Step) : Option (List Ev) :=
  (writeLoopBody steps).map (fun t => t ++ [Ev.close])

/-- An iteration input for undisturbed traffic: context not done, the
given read result, sends succeeding. -/
def mkStep (re : ReadEvent) : Step :=
  ⟨false, re, true⟩

/-- Is a read event a message (as opposed to an error)? -/
def isMsg : ReadEvent → Bool
  | .msg _ _ => true
  | _ => false

/-- The payloads of the data (text/binary) messages of a read sequence, in
order; non-data opcodes contribute nothing. -/
def dataPayloads (rs : List ReadEvent) : List String :=
  rs.filterMap (fun r =>
    match r with
    | .msg .text b => some b
    | .msg .binary b => some b
    | _ => none)

/-! ## Helper lemmas -/

/-- `takeWhile` of a list all of whose elements satisfy the predicate,
followed by a failing element, is exactly that list. -/
theorem takeWhile_all_append {p : Char → Bool} (l₁ : List Char) (x : Char)
    (l₂ : List Char) (h₁ : ∀ a ∈ l₁, p a = true) (h₂ : p x = false) :
    (l₁ ++ x :: l₂).takeWhile p = l₁ := by
  induction l₁ with
  | nil => simp [List.takeWhile, h₂]
  | cons a as ih =>
    have ha : p a = true := h₁ a (by simp)
    simp only [List.cons_append, List.takeWhile, ha]
    exact congrArg (a :: ·) (ih (fun b hb => h₁ b (by simp [hb])))

/-- Stripping the `;` suffix of `ct ++ ";" ++ suffix` recovers `ct` when
`ct` itself contains no `';'`. -/
theorem stripCT_semicolon_append (ct suffix : String) (h : ';' ∉ ct.data) :
    stripCT (ct ++ ";" ++ suffix) = ct := by
  unfold stripCT
  have hdata : (ct ++ ";" ++ suffix).data = ct.data ++ ';' :: suffix.data := by
    simp [String.data_append]
  rw [hdata, takeWhile_all_append]
  · intro a ha
    simp only [bne_iff_ne, ne_eq]
    exact fun hEq => h (hEq ▸ ha)
  · simp

/-- `takeWhile` keeps a list all of whose elements satisfy the predicate. -/
theorem takeWhile_all {p : Char → Bool} (l : List Char)
    (h : ∀ a ∈ l, p a = true) : l.takeWhile p = l := by
  induction l with
  | nil => rfl
  | cons a as ih =>
    simp [List.takeWhile, h a (by simp),
      ih (fun b hb => h b (by simp [hb]))]

/-- Stripping is the identity on a Content-Type without a `';'`. -/
theorem stripCT_no_semicolon (ct : String) (h : ';' ∉ ct.data) :
    stripCT ct = ct := by
  unfold stripCT
  rw [takeWhile_all]
  intro a ha
  simp only [bne_iff_ne, ne_eq]
  exact fun hEq => h (hEq ▸ ha)

/-- The endpoint check inside `isStream`, unfolded to a conjunction. -/
theorem isStream_ep_check (ep : Endpoint) (n : String) :
    ((if ep.name != n then false
      else (mdGet ep.metadata "stream" == "true")) = true)
      ↔ (ep.name = n ∧ mdGet ep.metadata "stream" = "true") := by
  by_cases hn : ep.name = n <;> simp [hn]

/-- The protocol loop of `serveWebsocket` (`stream.go:50-60`) sets the op
to binary on every iteration, so any non-empty protocol list ends binary. -/
theorem protoFold_binary (p : String) (ps : List String) (o : OpCode) :
    (p :: ps).foldl
      (fun _ q => if q == "binary" then OpCode.binary else OpCode.binary) o
      = OpCode.binary := by
  induction ps generalizing p o with
  | nil => simp
  | cons q qs ih =>
    rw [List.foldl_cons]
    exact ih q _

/-- A terminating `writeLoop` body emits no close action of its own: the
only close comes from the deferred `stream.Close()`. -/
theorem writeLoopBody_no_close (steps : List Step) :
    ∀ tr, writeLoopBody steps = some tr → Ev.close ∉ tr := by
  induction steps with
  | nil =>
    intro tr h
    simp [writeLoopBody] at h
  | cons s rest ih =>
    intro tr h
    rw [writeLoopBody] at h
    split at h
    · cases h
      simp
    · split at h
      · split at h <;> (cases h; simp)
      · cases h
        simp
      · split at h
        · exact ih tr h
        · split at h
          · obtain ⟨t, ht, rfl⟩ := Option.map_eq_some'.mp h
            simpa using ih t ht
          · cases h
            simp
        · split at h
          · obtain ⟨t, ht, rfl⟩ := Option.map_eq_some'.mp h
            simpa using ih t ht
          · cases h
            simp

/-- Running the `writeLoop` body over a block of message reads followed by
anything else forwards exactly the data payloads of the block, in order,
and then continues with the rest. -/
theorem writeLoopBody_msg_run (rs : List ReadEvent) (tail : List Step)
    (hmsg : rs.all isMsg = true) :
    writeLoopBody (rs.map mkStep ++ tail)
      = (writeLoopBody tail).map
          (fun t => (dataPayloads rs).map Ev.sent ++ t) := by
  induction rs with
  | nil =>
    cases h : writeLoopBody tail <;> simp [dataPayloads, h]
  | cons r rs ih =>
    have hall := hmsg
    rw [List.all_cons, Bool.and_eq_true] at hall
    obtain ⟨hr, hrs⟩ := hall
    cases r with
    | closedErr c => simp [isMsg] at hr
    | otherErr => simp [isMsg] at hr
    | msg op buf =>
      cases op with
      | other =>
        simp only [List.map_cons, List.cons_append]
        rw [writeLoopBody]
        simp only [mkStep]
        rw [ih hrs]
        simp [dataPayloads, List.filterMap_cons]
      | text =>
        simp only [List.map_cons, List.cons_append]
        rw [writeLoopBody]
        simp only [mkStep]
        rw [ih hrs]
        cases h : writeLoopBody tail <;>
          simp [dataPayloads, List.filterMap_cons, h]
      | binary =>
        simp only [List.map_cons, List.cons_append]
        rw [writeLoopBody]
        simp only [mkStep]
        rw [ih hrs]
        cases h : writeLoopBody tail <;>
          simp [dataPayloads, List.filterMap_cons, h]

/-! ## Claim theorems -/

/-- Claim C3, counterexample: the claim says that with no protocol-hint
value requesting binary framing and content type `application/json`, the
negotiated op is text; but the code sets the op to binary for any listed
protocol value (`chat` here), while the rule as the claim states it gives
text. -/
theorem c3_counterexample :
    negotiateOp "application/json" (some ["chat"]) = OpCode.binary ∧
    specNegotiateOp "application/json" (some ["chat"]) = OpCode.text := by
  exact ⟨rfl, by decide⟩

/-- Claim C3, amended: the negotiated framing op is binary whenever the
protocol-hint header is present with at least one value — whatever the
value is, not only an explicit `binary` request; with no protocol-hint
values, the op is binary unless the suffix-stripped content type is
exactly `application/json`, in which case it is text. -/
theorem c3_framing_op (ct : String) (ps : List String) (hne : ps ≠ []) :
    negotiateOp ct (some ps) = OpCode.binary ∧
    negotiateOp ct none
      = (if stripCT ct == "application/json" then OpCode.text
         else OpCode.binary) ∧
    negotiateOp ct (some [])
      = (if stripCT ct == "application/json" then OpCode.text
         else OpCode.binary) := by
  refine ⟨?_, rfl, rfl⟩
  obtain ⟨p, ps', rfl⟩ := List.exists_cons_of_ne_nil hne
  exact protoFold_binary p ps'
    (if stripCT ct == "application/json" then OpCode.text else OpCode.binary)

/-- Claim C3, witness for `c3_framing_op` at content type
`application/json` and protocol list `["chat"]`. -/
theorem c3_witness :
    (["chat"] : List String) ≠ [] ∧
    (negotiateOp "application/json" (some ["chat"]) = OpCode.binary ∧
     negotiateOp "application/json" none
       = (if stripCT "application/json" == "application/json" then OpCode.text
          else OpCode.binary) ∧
     negotiateOp "application/json" (some [])
       = (if stripCT "application/json" == "application/json" then OpCode.text
          else OpCode.binary)) :=
  ⟨by decide, c3_framing_op "application/json" ["chat"] (by decide)⟩

/-- Claim C4, counterexample: with no initial payload present (a GET
upgrade request with empty query extracts the empty payload), the claim
says no first frame is sent before the relay loops start; but the code
sends one first frame regardless, because both arms of the content-type
switch assign the request value and the `request != nil` guard therefore
never fails. -/
theorem c4_counterexample :
    (requestPayload 1024 ⟨"GET", "application/json", "", ""⟩).1
      = Except.ok Payload.empty ∧
    initialSends "application/json" "" ≠ [] ∧
    (initialSends "application/json" "").length = 1 := by
  refine ⟨rfl, by decide, rfl⟩

/-- Claim C4, amended: when opening the backend stream, exactly one first
outbound frame is always sent before the relay loops start, whether or not
an initial payload was present; it carries the extracted payload bytes
verbatim (possibly empty), wrapped as a raw json message for
`application/json` and as a codec frame otherwise. -/
theorem c4_initial_frame (rawCt payload : String) :
    initialSends rawCt payload
      = [if stripCT rawCt == "application/json" then InitMsg.jsonMsg payload
         else InitMsg.frameMsg payload] ∧
    (initialSends rawCt payload).length = 1 := by
  exact ⟨rfl, rfl⟩

/-- Claim C5, counterexample: the claim says the classifier strips
everything from the first `;` onward before comparing against the
encoding-family tables, and that a value matching no table defaults to
structured-text.  But the extraction families are matched by substring
containment on the unstripped header value: `text/plain;
application/octet-stream` strips to `text/plain`, which matches no table,
yet extraction selects the binary envelope family instead of the
structured-text default (here, the GET query conversion). -/
theorem c5_counterexample :
    stripCT "text/plain; application/octet-stream" = "text/plain" ∧
    hasCodec "text/plain" protoCodecs = false ∧
    hasCodec "text/plain" jsonCodecs = false ∧
    containsSub "text/plain" "application/www-x-form-urlencoded" = false ∧
    (requestPayload 64 ⟨"GET", "text/plain; application/octet-stream",
        "a=1", ""⟩).1
      = Except.ok (Payload.envProto "") := by
  exact ⟨by decide, by decide, by decide, by decide, rfl⟩

/-- Claim C5, amended: the `;`-suffix strip happens before the comparison
against the codec tables used to pick the wire family of the backend call
(proto table, json table, exact equality, unmatched values defaulting to
structured-text), so `application/json; charset=UTF-8` classifies
identically to `application/json` there; the envelope and form extraction
families, however, are matched by substring containment on the unstripped
Content-Type value. -/
theorem c5_content_type_tables :
    (∀ ct suffix : String, ';' ∉ ct.data →
      classifyCT (ct ++ ";" ++ suffix) = classifyCT ct) ∧
    classifyCT "application/json; charset=UTF-8"
      = classifyCT "application/json" ∧
    (∀ ct : String, hasCodec (stripCT ct) protoCodecs = false →
      classifyCT ct = WireFamily.structuredText) ∧
    (∀ (ceiling : Nat) (r : Request),
      containsSub r.contentType "application/json-rpc" = false →
      containsSub r.contentType "application/octet-stream" = true →
      (requestPayload ceiling r).1 = Except.ok (Payload.envProto r.body)) := by
  refine ⟨?_, by decide, ?_, ?_⟩
  · intro ct suffix h
    unfold classifyCT
    rw [stripCT_semicolon_append ct suffix h, stripCT_no_semicolon ct h]
  · intro ct h
    simp [classifyCT, h]
  · intro ceiling r h1 h2
    simp [requestPayload, h1, h2]

/-- Claim C5, witness for `c5_content_type_tables`: each hypothesised
conjunct applied at a concrete input. -/
theorem c5_witness :
    classifyCT ("text/plain" ++ ";" ++ "charset=UTF-8")
      = classifyCT "text/plain" ∧
    classifyCT "text/xyz" = WireFamily.structuredText ∧
    (requestPayload 64 ⟨"POST", "application/octet-stream", "", "pb"⟩).1
      = Except.ok (Payload.envProto "pb") :=
  ⟨c5_content_type_tables.1 "text/plain" "charset=UTF-8" (by decide),
   c5_content_type_tables.2.2.1 "text/xyz" (by decide),
   c5_content_type_tables.2.2.2 64 ⟨"POST", "application/octet-stream", "", "pb"⟩
     (by decide) (by decide)⟩

/-- Claim C6: the Streaming Bridge is entered if and only if the request
carries the `upgrade` token in its Connection header and the `websocket`
token in its Upgrade header (comma-split, trimmed, lowercased) and some
endpoint whose name exactly matches the resolved endpoint's name carries
metadata `stream = "true"` in some registered service instance; when no
such endpoint exists, the request falls through to unary handling even if
it is a valid upgrade request. -/
theorem c6_streaming_gate (h : StreamHeaders) (srv : ApiService) :
    (dispatch h srv = Dispatch.streaming ↔
      ((∃ v ∈ splitOnChar ',' h.connection.data,
          "upgrade" = String.mk ((trimChars v).map Char.toLower)) ∧
       (∃ v ∈ splitOnChar ',' h.upgrade.data,
          "websocket" = String.mk ((trimChars v).map Char.toLower))) ∧
      ∃ s ∈ srv.services, ∃ ep ∈ s.endpoints,
        ep.name = srv.endpointName ∧ mdGet ep.metadata "stream" = "true") ∧
    ((¬ ∃ s ∈ srv.services, ∃ ep ∈ s.endpoints,
        ep.name = srv.endpointName ∧ mdGet ep.metadata "stream" = "true") →
      dispatch h srv = Dispatch.unary) := by
  have hiff : isStream h srv = true ↔
      ((∃ v ∈ splitOnChar ',' h.connection.data,
          "upgrade" = String.mk ((trimChars v).map Char.toLower)) ∧
       (∃ v ∈ splitOnChar ',' h.upgrade.data,
          "websocket" = String.mk ((trimChars v).map Char.toLower))) ∧
      ∃ s ∈ srv.services, ∃ ep ∈ s.endpoints,
        ep.name = srv.endpointName ∧ mdGet ep.metadata "stream" = "true" := by
    unfold isStream isWebSocket headerHasToken
    simp only [Bool.and_eq_true, List.any_eq_true, isStream_ep_check,
      beq_iff_eq]
  constructor
  · by_cases hst : isStream h srv = true
    · rw [dispatch, if_pos hst]
      exact iff_of_true rfl (hiff.mp hst)
    · rw [dispatch, if_neg hst]
      simp only [reduceCtorEq, false_iff]
      exact fun hr => hst (hiff.mpr hr)
  · intro hno
    rw [dispatch, if_neg]
    intro hst
    exact hno (hiff.mp hst).2

/-- Claim C6, witness for `c6_streaming_gate`: a valid websocket upgrade
request whose matched endpoint lacks the streaming attribute is handled by
the unary path. -/
theorem c6_witness :
    isWebSocket ⟨"keep-alive, Upgrade", "websocket"⟩ = true ∧
    dispatch ⟨"keep-alive, Upgrade", "websocket"⟩
        ⟨"Say.Hello", [⟨[⟨"Say.Hello", [("stream", "false")]⟩]⟩]⟩
      = Dispatch.unary :=
  ⟨by decide,
   (c6_streaming_gate ⟨"keep-alive, Upgrade", "websocket"⟩
      ⟨"Say.Hello", [⟨[⟨"Say.Hello", [("stream", "false")]⟩]⟩]⟩).2
     (by decide)⟩

/-- Claim C7: for a GET request whose content type matches none of the
envelope or form families and whose query string is non-empty, payload
extraction converts the query string through the query-to-JSON conversion
(no buffer-pool traffic); in particular `a=1&b=2` yields the JSON object
mapping `a` to `"1"` and `b` to `"2"`. -/
theorem c7_get_query_payload (ceiling : Nat) (r : Request)
    (hm : r.method = "GET")
    (h1 : containsSub r.contentType "application/json-rpc" = false)
    (h2 : containsSub r.contentType "application/proto-rpc" = false)
    (h3 : containsSub r.contentType "application/octet-stream" = false)
    (h4 : containsSub r.contentType "application/www-x-form-urlencoded"
      = false)
    (hq : 0 < r.rawQuery.length) :
    requestPayload ceiling r
      = (Except.ok (Payload.query (qsonToJSON r.rawQuery)), []) ∧
    qsonToJSON "a=1&b=2" = "\x7b\"a\":\"1\",\"b\":\"2\"\x7d" := by
  obtain ⟨m, ct, q, b⟩ := r
  dsimp only at hm h1 h2 h3 h4 hq
  subst hm
  refine ⟨?_, by decide⟩
  simp [requestPayload, methodPayload, h1, h2, h3, h4, hq]

/-- Claim C7, witness for `c7_get_query_payload` at the spec's example
query string. -/
theorem c7_witness :
    (0 < ("a=1&b=2" : String).length) ∧
    requestPayload 64 ⟨"GET", "", "a=1&b=2", ""⟩
      = (Except.ok (Payload.query (qsonToJSON "a=1&b=2")), []) ∧
    qsonToJSON "a=1&b=2" = "\x7b\"a\":\"1\",\"b\":\"2\"\x7d" :=
  ⟨by decide,
   (c7_get_query_payload 64 ⟨"GET", "", "a=1&b=2", ""⟩ rfl rfl rfl rfl rfl
      (by decide)).1,
   (c7_get_query_payload 64 ⟨"GET", "", "a=1&b=2", ""⟩ rfl rfl rfl rfl rfl
      (by decide)).2⟩

/-- Claim C8: for a mutating (POST or PATCH) request whose content type
matches none of the envelope or form families, a body longer than the
configured ceiling makes extraction fail with the too-large error and no
partial payload; a body at or below the ceiling is returned in full; in
both cases exactly one buffer is checked out of the pool and returned to
it afterwards. -/
theorem c8_size_ceiling (ceiling : Nat) (r : Request)
    (hm : r.method = "POST" ∨ r.method = "PATCH")
    (h1 : containsSub r.contentType "application/json-rpc" = false)
    (h2 : containsSub r.contentType "application/proto-rpc" = false)
    (h3 : containsSub r.contentType "application/octet-stream" = false)
    (h4 : containsSub r.contentType "application/www-x-form-urlencoded"
      = false) :
    (ceiling < r.body.length →
      requestPayload ceiling r
        = (Except.error PayloadErr.tooLarge, [PoolEv.get, PoolEv.put])) ∧
    (r.body.length ≤ ceiling →
      requestPayload ceiling r
        = (Except.ok (Payload.bytes r.body), [PoolEv.get, PoolEv.put])) := by
  obtain ⟨m, ct, q, b⟩ := r
  dsimp only at hm h1 h2 h3 h4
  constructor
  · intro hlen
    rcases hm with hm | hm <;> subst hm <;>
      simp [requestPayload, methodPayload, h1, h2, h3, h4,
        Nat.not_le.mpr hlen]
  · intro hlen
    rcases hm with hm | hm <;> subst hm <;>
      simp [requestPayload, methodPayload, h1, h2, h3, h4, hlen]

/-- Claim C8, witness for `c8_size_ceiling`: a three-byte POST body
against a two-byte ceiling fails with the too-large error while the
buffer-pool checkout is still returned. -/
theorem c8_witness :
    (2 < ("abc" : String).length) ∧
    requestPayload 2 ⟨"POST", "", "", "abc"⟩
      = (Except.error PayloadErr.tooLarge, [PoolEv.get, PoolEv.put]) :=
  ⟨by decide,
   (c8_size_ceiling 2 ⟨"POST", "", "", "abc"⟩ (Or.inl rfl) rfl rfl rfl rfl).1
     (by decide)⟩

/-- Claim C10: the MethodNotAllowed rejection fires exactly when a router
is configured and the method is neither GET nor POST; with a
directly-supplied service and no router every method passes the gate; and
a PATCH body is extracted exactly like a POST body (same payload, same
buffer-pool traffic). -/
theorem c10_method_gate (hs hr : Bool) (m : String) (ceiling : Nat)
    (ct q b : String) :
    (serveGate hs hr m = GateOutcome.methodNotAllowed ↔
      hr = true ∧ m ≠ "GET" ∧ m ≠ "POST") ∧
    serveGate true false m = GateOutcome.handled ∧
    requestPayload ceiling ⟨"PATCH", ct, q, b⟩
      = requestPayload ceiling ⟨"POST", ct, q, b⟩ := by
  refine ⟨?_, ?_, rfl⟩
  · cases hs <;> cases hr <;>
      by_cases hG : m = "GET" <;> by_cases hP : m = "POST" <;>
      simp [serveGate, hG, hP]
  · by_cases hG : m = "GET" <;> simp [serveGate, hG]

/-- Claim C1: every terminating run of the upstream relay closes the
backend stream handle exactly once, as the last action of its exit path
(the deferred `stream.Close()`), whatever made it exit; and a connection
close carrying the going-away, normal-closure, or no-status-received
status makes the relay exit immediately with no error reported — its
whole trace is the single guaranteed close. -/
theorem c1_backend_stream_closed_once (steps : List Step) (tr : List Ev)
    (hterm : writeLoopRun steps = some tr) :
    tr.count Ev.close = 1 ∧ tr.getLast? = some Ev.close ∧
    (∀ (c : Nat) (rest : List Step), benignCode c = true →
      writeLoopRun (⟨false, ReadEvent.closedErr c, true⟩ :: rest)
        = some [Ev.close]) := by
  obtain ⟨t, ht, rfl⟩ := Option.map_eq_some'.mp hterm
  have hnc := writeLoopBody_no_close steps t ht
  refine ⟨?_, ?_, ?_⟩
  · rw [List.count_append]
    simp [List.count_eq_zero.mpr hnc]
  · exact List.getLast?_concat t
  · intro c rest hc
    simp [writeLoopRun, writeLoopBody, hc]

/-- Claim C1, witness for `c1_backend_stream_closed_once`: a session whose
client immediately sends a going-away close produces exactly the single
backend-stream close, as the relay's last action. -/
theorem c1_witness :
    writeLoopRun [⟨false, ReadEvent.closedErr 1001, true⟩]
      = some [Ev.close] ∧
    [Ev.close].count Ev.close = 1 ∧
    [Ev.close].getLast? = some Ev.close :=
  ⟨rfl,
   (c1_backend_stream_closed_once [⟨false, ReadEvent.closedErr 1001, true⟩]
      [Ev.close] rfl).1,
   (c1_backend_stream_closed_once [⟨false, ReadEvent.closedErr 1001, true⟩]
      [Ev.close] rfl).2.1⟩

/-- Claim C9: with the backend stream context live and sends succeeding,
a sequence of connection reads consisting of messages followed by a benign
close forwards exactly the payloads of the data (text/binary) messages to
the backend, verbatim and in the order read — no frame split, merged, or
dropped — while non-data frames are skipped without terminating the loop
or producing any action; the trace ends with the single deferred close. -/
theorem c9_frames_forwarded_in_order (rs : List ReadEvent) (c : Nat)
    (hmsg : rs.all isMsg = true) (hc : benignCode c = true) :
    writeLoopRun (rs.map mkStep ++ [mkStep (ReadEvent.closedErr c)])
      = some ((dataPayloads rs).map Ev.sent ++ [Ev.close]) := by
  unfold writeLoopRun
  rw [writeLoopBody_msg_run rs [mkStep (ReadEvent.closedErr c)] hmsg]
  simp [writeLoopBody, mkStep, hc]

/-- Claim C9, witness for `c9_frames_forwarded_in_order`: frames `f1`,
`f2`, `f3` with an interleaved non-data frame are forwarded as exactly
`f1, f2, f3`, then the close fires. -/
theorem c9_witness :
    ([ReadEvent.msg WsOp.text "f1", ReadEvent.msg WsOp.other "ping",
      ReadEvent.msg WsOp.binary "f2", ReadEvent.msg WsOp.text "f3"].all isMsg
      = true) ∧
    benignCode 1000 = true ∧
    writeLoopRun
        ([ReadEvent.msg WsOp.text "f1", ReadEvent.msg WsOp.other "ping",
          ReadEvent.msg WsOp.binary "f2",
          ReadEvent.msg WsOp.text "f3"].map mkStep
          ++ [mkStep (ReadEvent.closedErr 1000)])
      = some [Ev.sent "f1", Ev.sent "f2", Ev.sent "f3", Ev.close] :=
  ⟨by decide, by decide, by
    simpa [dataPayloads] using
      c9_frames_forwarded_in_order
        [ReadEvent.msg WsOp.text "f1", ReadEvent.msg WsOp.other "ping",
         ReadEvent.msg WsOp.binary "f2", ReadEvent.msg WsOp.text "f3"]
        1000 (by decide) (by decide)⟩

end MicroRpc
